import Mathlib

/-!
Verification development for the blender_ideation repository (Python).

Shallow embedding conventions:
* Python strings are modelled as Lean String or List Char; byte strings as
  List Nat.
* Paths use POSIX separators; os.path.join dir name is modelled as
  dir ++ "/" ++ name and os.path.basename as the segment after the last '/'.
* json.loads is modelled by a recursive-descent parser for the JSON subset
  exercised by this repository: null, booleans, leading-zero-free integers,
  escape-free strings without unescaped control characters, and arrays,
  with the whitespace set of the JSON grammar. The model accepts only
  texts json.loads also accepts and agrees with json.loads on every text
  it accepts; floats, exponents, escape sequences and objects are outside
  the subset and simply fail to parse in the model.
* The regex search for the pattern backslash-bracket dot-star
  close-bracket with DOTALL (ai_services.py lines 70 and 190) matches from
  the first open bracket to the last close bracket of the text, when the
  latter comes after the former; greedySpan models exactly that.
-/

/-- Model of os.path.join for the POSIX case used throughout the repo. -/
def pathJoin (dir name : String) : String := dir ++ "/" ++ name

/-- Characters of a path after the last slash (os.path.basename, POSIX). -/
def baseNameL (p : List Char) : List Char :=
  (p.reverse.takeWhile (fun c => c != '/')).reverse

/-- Model of os.path.basename on POSIX paths. -/
def baseName (p : String) : String := String.mk (baseNameL p.data)

/-- JSON values in the subset exercised by the repository. -/
inductive JVal where
  | jnull : JVal
  | jbool : Bool → JVal
  | jnum : Int → JVal
  | jstr : List Char → JVal
  | jarr : List JVal → JVal

/-- Whitespace accepted between JSON tokens (the JSON grammar set). -/
def jsonWs (c : Char) : Bool := c == ' ' || c == '\t' || c == '\n' || c == '\r'

/-- Drop leading JSON whitespace. -/
def skipWs (s : List Char) : List Char := s.dropWhile jsonWs

/-- Parse the body of a JSON string after the opening quote; returns the
contents and the remaining input. Escape sequences are outside the
modelled subset and fail to parse; an unescaped control character (code
point below 32) is rejected exactly as json.loads rejects it in its
default strict mode. -/
def parseStringBody : List Char → Option (List Char × List Char)
  | [] => none
  | '"' :: rest => some ([], rest)
  | '\\' :: _ => none
  | c :: rest =>
    if c.toNat < 32 then none
    else (parseStringBody rest).map (fun p => (c :: p.1, p.2))

/-- Read a decimal digit string as a natural number. -/
def digitsToNat (ds : List Char) : Nat :=
  ds.foldl (fun a c => a * 10 + (c.toNat - 48)) 0

/-- Parse a decimal integer numeral whose first character is already in
hand, per the JSON grammar: a numeral is the single zero digit or starts
with a nonzero digit, so a leading zero followed by further digits is
rejected exactly as json.loads rejects it. -/
def parseIntDigits (c : Char) (rest : List Char) : Option (Nat × List Char) :=
  if c.isDigit then
    if c == '0' && !(rest.takeWhile Char.isDigit).isEmpty then none
    else some (digitsToNat (c :: rest.takeWhile Char.isDigit), rest.dropWhile Char.isDigit)
  else none

mutual

/-- Fuel-indexed parser of a single JSON value (models json.loads on the
subset above). -/
def parseVal : Nat → List Char → Option (JVal × List Char)
  | 0, _ => none
  | Nat.succ fuel, s =>
    match skipWs s with
    | 'n' :: 'u' :: 'l' :: 'l' :: rest => some (JVal.jnull, rest)
    | 't' :: 'r' :: 'u' :: 'e' :: rest => some (JVal.jbool true, rest)
    | 'f' :: 'a' :: 'l' :: 's' :: 'e' :: rest => some (JVal.jbool false, rest)
    | '"' :: rest => (parseStringBody rest).map (fun p => (JVal.jstr p.1, p.2))
    | '[' :: rest => (parseElems fuel true rest).map (fun p => (JVal.jarr p.1, p.2))
    | '-' :: c :: rest =>
      (parseIntDigits c rest).map (fun p => (JVal.jnum (-(Int.ofNat p.1)), p.2))
    | c :: rest =>
      (parseIntDigits c rest).map (fun p => (JVal.jnum (Int.ofNat p.1), p.2))
    | [] => none

/-- Fuel-indexed parser of the elements of a JSON array after the opening
bracket; the flag records whether an immediate close bracket (empty array)
is still allowed. -/
def parseElems : Nat → Bool → List Char → Option (List JVal × List Char)
  | 0, _, _ => none
  | Nat.succ fuel, allowEnd, s =>
    match skipWs s with
    | ']' :: rest => if allowEnd then some ([], rest) else none
    | s1 =>
      match parseVal fuel s1 with
      | none => none
      | some (v, s2) =>
        match skipWs s2 with
        | ',' :: rest =>
          match parseElems fuel false rest with
          | none => none
          | some (vs, s3) => some (v :: vs, s3)
        | ']' :: rest => some ([v], rest)
        | _ => none

end

/-- Model of json.loads on the repository's JSON subset: a single value
followed only by whitespace. The model accepts only texts json.loads also
accepts and returns the same value on each of them. -/
def jsonLoads (s : List Char) : Option JVal :=
  match parseVal (2 * s.length + 2) s with
  | some (v, rest) => if skipWs rest = [] then some v else none
  | none => none

/-- The span matched by re.search of open-bracket dot-star close-bracket
with DOTALL: from the first open bracket to the last close bracket after
it, or none when no such span exists. -/
def greedySpan (s : List Char) : Option (List Char) :=
  let t := s.dropWhile (fun c => c != '[')
  let u := (t.reverse.dropWhile (fun c => c != ']')).reverse
  if u.isEmpty then none else some u

/-- The bracketed-array extraction shared by ClaudeService.extract_tags and
ClaudeService.suggest_improvements (ai_services.py lines 66 to 77 and 186
to 197): regex-match a bracketed span, json-parse it, and absorb every
failure into an empty list. -/
def extractArray (content : List Char) : List JVal :=
  match greedySpan content with
  | none => []
  | some sp =>
    match jsonLoads sp with
    | some (JVal.jarr xs) => xs
    | _ => []

/-- Result of ClaudeService.extract_tags given the service response text;
the max_tags argument is carried because the source receives it, but the
source only interpolates it into the request prompt. -/
def extract_tags (response : List Char) (max_tags : Nat) : List JVal :=
  (fun _ => extractArray response) max_tags

/-- The request prompt built by ClaudeService.extract_tags (whitespace of
the source f-string condensed); max_tags and the text input are
interpolated here and nowhere else. -/
def extractTagsPrompt (text_input : String) (max_tags : Nat) : String :=
  "Extract up to " ++ toString max_tags ++
    " relevant tags from this project description. " ++
    "Return only the tags as a JSON array of strings. Description: " ++ text_input

/-- Result of ClaudeService.suggest_improvements given the response text:
the same bracketed-array extraction as extract_tags. -/
def suggest_improvements (response : List Char) : List JVal :=
  extractArray response

/-- Decimal digit character for a digit value (values above 9 do not occur
under the validity bounds used below). -/
def digitChar (n : Nat) : Char :=
  match n with
  | 0 => '0' | 1 => '1' | 2 => '2' | 3 => '3' | 4 => '4'
  | 5 => '5' | 6 => '6' | 7 => '7' | 8 => '8' | 9 => '9'
  | _ => '0'

/-- Value of a decimal digit character, by its distance from the code point
of the zero digit. -/
def digitVal (c : Char) : Option Nat :=
  if 48 ≤ c.toNat && c.toNat ≤ 57 then some (c.toNat - 48) else none

/-- Two-digit zero-padded decimal rendering (printf %02d for values below
100). -/
def pad2 (n : Nat) : List Char := [digitChar (n / 10), digitChar (n % 10)]

/-- Four-digit zero-padded decimal rendering (printf %04d for values below
10000). -/
def pad4 (n : Nat) : List Char :=
  [digitChar (n / 1000), digitChar (n / 100 % 10), digitChar (n / 10 % 10), digitChar (n % 10)]

/-- Six-digit zero-padded decimal rendering (printf %06d for values below
1000000). -/
def pad6 (n : Nat) : List Char :=
  [digitChar (n / 100000), digitChar (n / 10000 % 10), digitChar (n / 1000 % 10),
    digitChar (n / 100 % 10), digitChar (n / 10 % 10), digitChar (n % 10)]

/-- Naive (timezone-free) Python datetime value, as stored by
IdeationSession (data_models.py lines 24 to 25). -/
structure PyDateTime where
  year : Nat
  month : Nat
  day : Nat
  hour : Nat
  minute : Nat
  second : Nat
  microsecond : Nat
deriving DecidableEq

/-- Gregorian leap-year rule used by the datetime module. -/
def isLeap (y : Nat) : Bool := y % 4 == 0 && (y % 100 != 0 || y % 400 == 0)

/-- Length of a month in the proleptic Gregorian calendar. -/
def daysInMonth (y m : Nat) : Nat :=
  match m with
  | 1 => 31 | 2 => if isLeap y then 29 else 28 | 3 => 31 | 4 => 30
  | 5 => 31 | 6 => 30 | 7 => 31 | 8 => 31 | 9 => 30 | 10 => 31
  | 11 => 30 | 12 => 31 | _ => 0

/-- Field bounds enforced by the datetime constructor (MINYEAR 1, MAXYEAR
9999, calendar-valid day, clock-valid time). -/
def validDT (d : PyDateTime) : Prop :=
  1 ≤ d.year ∧ d.year ≤ 9999 ∧ 1 ≤ d.month ∧ d.month ≤ 12 ∧
    1 ≤ d.day ∧ d.day ≤ daysInMonth d.year d.month ∧
    d.hour ≤ 23 ∧ d.minute ≤ 59 ∧ d.second ≤ 59 ∧ d.microsecond ≤ 999999

instance (d : PyDateTime) : Decidable (validDT d) := by
  unfold validDT
  infer_instance

/-- Model of datetime.isoformat for naive values: date and time separated
by the letter T, with the microsecond part present exactly when the
microsecond field is nonzero. -/
def isoformatDT (d : PyDateTime) : List Char :=
  pad4 d.year ++ ('-' :: (pad2 d.month ++ ('-' :: (pad2 d.day ++
    ('T' :: (pad2 d.hour ++ (':' :: (pad2 d.minute ++ (':' :: (pad2 d.second ++
      (if d.microsecond = 0 then [] else '.' :: pad6 d.microsecond)))))))))))

/-- Parse two decimal digits. -/
def parse2 : List Char → Option (Nat × List Char)
  | a :: b :: rest =>
    match digitVal a, digitVal b with
    | some x, some y => some (x * 10 + y, rest)
    | _, _ => none
  | _ => none

/-- Parse four decimal digits. -/
def parse4 : List Char → Option (Nat × List Char)
  | a :: b :: c :: d :: rest =>
    match digitVal a, digitVal b, digitVal c, digitVal d with
    | some x, some y, some z, some w => some (((x * 10 + y) * 10 + z) * 10 + w, rest)
    | _, _, _, _ => none
  | _ => none

/-- Parse six decimal digits. -/
def parse6 : List Char → Option (Nat × List Char)
  | a :: b :: c :: d :: e :: f :: rest =>
    match digitVal a, digitVal b, digitVal c, digitVal d, digitVal e, digitVal f with
    | some x, some y, some z, some w, some v, some u =>
      some (((((x * 10 + y) * 10 + z) * 10 + w) * 10 + v) * 10 + u, rest)
    | _, _, _, _, _, _ => none
  | _ => none

/-- Require a specific next character. -/
def expectChar (c : Char) : List Char → Option (List Char)
  | [] => none
  | a :: rest => if a = c then some rest else none

/-- The datetime constructor: validates field bounds, then produces the
value (invalid fields raise in Python, modelled as none). -/
def mkDateTime (y mo d h mi s us : Nat) : Option PyDateTime :=
  if 1 ≤ y ∧ y ≤ 9999 ∧ 1 ≤ mo ∧ mo ≤ 12 ∧ 1 ≤ d ∧ d ≤ daysInMonth y mo ∧
      h ≤ 23 ∧ mi ≤ 59 ∧ s ≤ 59 ∧ us ≤ 999999 then
    some (PyDateTime.mk y mo d h mi s us)
  else none

/-- Model of datetime.fromisoformat restricted to the documents isoformat
emits: fixed-width date and time fields, optional six-digit fractional
part, full field validation. -/
def fromisoformatDT (s : List Char) : Option PyDateTime := do
  let (y, s1) ← parse4 s
  let s2 ← expectChar '-' s1
  let (mo, s3) ← parse2 s2
  let s4 ← expectChar '-' s3
  let (d, s5) ← parse2 s4
  let s6 ← expectChar 'T' s5
  let (h, s7) ← parse2 s6
  let s8 ← expectChar ':' s7
  let (mi, s9) ← parse2 s8
  let s10 ← expectChar ':' s9
  let (sec, s11) ← parse2 s10
  match s11 with
  | [] => mkDateTime y mo d h mi sec 0
  | '.' :: rest =>
    match parse6 rest with
    | some (us, []) => mkDateTime y mo d h mi sec us
    | _ => none
  | _ => none

/-- The IdeationSession dataclass (data_models.py lines 11 to 32): metadata,
tags, two timestamps, and five optional artifact paths. -/
structure IdeationSession where
  id : String
  title : String
  project_type : String
  genre : String
  description : String
  tags : List String
  created_at : PyDateTime
  updated_at : PyDateTime
  sketch_path : Option String
  rendered_image_path : Option String
  sketch_3d_path : Option String
  text_3d_path : Option String
  blender_file_path : Option String
deriving DecidableEq

/-- The dictionary produced by IdeationSession.to_dict: same fields, with
both timestamps rendered as ISO-8601 strings. -/
structure SessionDict where
  id : String
  title : String
  project_type : String
  genre : String
  description : String
  tags : List String
  created_at : List Char
  updated_at : List Char
  sketch_path : Option String
  rendered_image_path : Option String
  sketch_3d_path : Option String
  text_3d_path : Option String
  blender_file_path : Option String
deriving DecidableEq

/-- IdeationSession.to_dict (data_models.py lines 34 to 50). -/
def to_dict (s : IdeationSession) : SessionDict :=
  SessionDict.mk s.id s.title s.project_type s.genre s.description s.tags
    (isoformatDT s.created_at) (isoformatDT s.updated_at)
    s.sketch_path s.rendered_image_path s.sketch_3d_path s.text_3d_path
    s.blender_file_path

/-- IdeationSession.from_dict (data_models.py lines 52 to 64): parse both
timestamp strings with fromisoformat, then call the constructor; a parse
failure raises in Python, modelled as none. -/
def from_dict (d : SessionDict) : Option IdeationSession :=
  match fromisoformatDT d.created_at, fromisoformatDT d.updated_at with
  | some c, some u =>
    some (IdeationSession.mk d.id d.title d.project_type d.genre d.description
      d.tags c u d.sketch_path d.rendered_image_path d.sketch_3d_path
      d.text_3d_path d.blender_file_path)
  | _, _ => none

/-- RGBA pixel with channel values 0 to 255. -/
structure Pixel where
  r : Nat
  g : Nat
  b : Nat
  a : Nat
deriving DecidableEq

/-- PIL image model: the mode string plus the flattened pixel data (pixel
values of non-RGBA modes are modelled already expanded to four channels). -/
structure PyImage where
  mode : String
  width : Nat
  height : Nat
  pixels : List Pixel
deriving DecidableEq

/-- PIL Image.convert to RGBA: identity on RGBA images, otherwise the same
pixel data at full opacity under the RGBA mode tag. -/
def convertRGBA (img : PyImage) : PyImage :=
  if img.mode = "RGBA" then img
  else PyImage.mk "RGBA" img.width img.height
    (img.pixels.map (fun p => Pixel.mk p.r p.g p.b 255))

/-- One channel of PIL Image.alpha_composite: source over destination with
exact rational alpha arithmetic, rounded to the nearest integer (models the
fixed-point arithmetic of the PIL compositing kernel). -/
def compositeChannel (bgc bga fgc fga : Nat) : Nat :=
  let fa : ℚ := (fga : ℚ) / 255
  let ba : ℚ := (bga : ℚ) / 255
  let oa : ℚ := fa + ba * (1 - fa)
  if oa = 0 then 0
  else Int.toNat (round (((fgc : ℚ) * fa + (bgc : ℚ) * ba * (1 - fa)) / oa))

/-- Resulting alpha channel of PIL Image.alpha_composite. -/
def compositeAlpha (bga fga : Nat) : Nat :=
  let fa : ℚ := (fga : ℚ) / 255
  let ba : ℚ := (bga : ℚ) / 255
  Int.toNat (round ((fa + ba * (1 - fa)) * 255))

/-- PIL Image.alpha_composite of a solid foreground color over a background
image, pixel by pixel. -/
def alphaComposite (bg : PyImage) (fr fg fb fa : Nat) : PyImage :=
  PyImage.mk "RGBA" bg.width bg.height
    (bg.pixels.map (fun p =>
      Pixel.mk (compositeChannel p.r p.a fr fa) (compositeChannel p.g p.a fg fa)
        (compositeChannel p.b p.a fb fa) (compositeAlpha p.a fa)))

/-- utils.add_color_tint (utils.py lines 81 to 101): convert to RGBA, build
a solid tint layer with alpha int(255 * intensity), and alpha-composite the
tint over the image. -/
def add_color_tint (image : PyImage) (cr cg cb : Nat) (intensity : ℚ) : PyImage :=
  let base := convertRGBA image
  let tintAlpha := Int.toNat (Int.floor (255 * intensity))
  alphaComposite base cr cg cb tintAlpha

/-- Contents of a file in the model: raw bytes, decoded-and-saved image
data, or a generated automation script carrying its interpolated
parameters (the script text itself is an implementation-private wire
format; pairing the template name with its parameters models it). -/
inductive FileData where
  | bytes : List Nat → FileData
  | image : PyImage → FileData
  | script : String → List String → FileData
  | session : SessionDict → FileData
deriving DecidableEq

/-- Filesystem and environment state threaded through the operations:
stored files (later writes shadow earlier ones), the PIL decoder for
stored byte files, and which paths the filesystem accepts writes to. -/
structure World where
  files : List (String × FileData)
  decode : List Nat → Option PyImage
  writable : String → Bool

/-- Look up the current contents at a path. -/
def lookupFile (p : String) : List (String × FileData) → Option FileData
  | [] => none
  | (q, fd) :: rest => if q = p then some fd else lookupFile p rest

/-- Write contents at a path, or fail (raising OSError in Python) when the
filesystem rejects the write. -/
def writeFile (w : World) (p : String) (fd : FileData) : Option World :=
  if w.writable p then some (World.mk ((p, fd) :: w.files) w.decode w.writable)
  else none

/-- Delete every entry at a path (os.remove after an existence check). -/
def removeFile (w : World) (p : String) : World :=
  World.mk (w.files.filter (fun kv => decide (kv.1 ≠ p))) w.decode w.writable

/-- PIL Image.open at a path: byte files go through the decoder, an image
saved by this process reopens as itself, anything else fails. -/
def openImage (w : World) (p : String) : Option PyImage :=
  match lookupFile p w.files with
  | some (FileData.bytes b) => w.decode b
  | some (FileData.image i) => some i
  | _ => none

/-- MockImageGenerator.convert_sketch_to_image (ai_services.py lines 206 to
233): open the sketch, tint it with RGB (100, 100, 255) at intensity 0.3,
save it under the output directory as rendered_ plus the input base name;
every failure (undecodable input, failed save) is caught and absorbed into
None. Directory creation by os.makedirs is not tracked; its failure is
folded into the write step. -/
def convert_sketch_to_image (w : World) (sketch_path output_dir : String) :
    World × Option String :=
  match openImage w sketch_path with
  | none => (w, none)
  | some img =>
    let processed := add_color_tint img 100 100 255 (3 / 10)
    let output_path := pathJoin output_dir ("rendered_" ++ baseName sketch_path)
    match writeFile w output_path (FileData.image processed) with
    | none => (w, none)
    | some w2 => (w2, some output_path)

/-- The placeholder artifact both mock 3D generators write. -/
def mockModelBytes : List Nat := "MOCK 3D MODEL".data.map Char.toNat

/-- Mock3DGenerator.sketch_to_3d (ai_services.py lines 242 to 262): derive
the output path, write the placeholder bytes, return the path. There is no
exception handler, so a failed write propagates (Except.error). -/
def sketch_to_3d (w : World) (image_path output_dir : String) :
    World × Except Unit String :=
  let output_path :=
    pathJoin output_dir ("model_from_sketch_" ++ baseName image_path ++ ".glb")
  match writeFile w output_path (FileData.bytes mockModelBytes) with
  | none => (w, Except.error ())
  | some w2 => (w2, Except.ok output_path)

/-- Whitespace for the parameterless str.split (ASCII model). -/
def pyIsSpace (c : Char) : Bool :=
  c == ' ' || c == '\t' || c == '\n' || c == '\r' || c == '\x0B' || c == '\x0C'

/-- Parameterless str.split: split on whitespace runs, dropping empty
pieces. -/
def pySplit (s : List Char) : List (List Char) :=
  (s.splitOnP pyIsSpace).filter (fun w => !w.isEmpty)

/-- The character class kept by re.sub of not-word-not-hyphen-not-underscore
with the empty replacement (ASCII model of the word-character class). -/
def keepWordChar (c : Char) : Bool := c.isAlphanum || c == '_' || c == '-'

/-- Filename slug built by Mock3DGenerator.text_to_3d (ai_services.py lines
280 to 282): first three whitespace-separated words, joined by
underscores, lower-cased, with everything outside the word-character and
hyphen set removed. -/
def textSlug (prompt : List Char) : List Char :=
  let words := (pySplit prompt).take 3
  let joined := List.intercalate ['_'] words
  (joined.map Char.toLower).filter keepWordChar

/-- Mock3DGenerator.text_to_3d (ai_services.py lines 264 to 290): slug the
prompt, derive the output path, write the placeholder bytes, return the
path. There is no exception handler, so a failed write propagates. -/
def text_to_3d (w : World) (text_prompt : List Char) (output_dir : String) :
    World × Except Unit String :=
  let filename := String.mk (textSlug text_prompt)
  let output_path := pathJoin output_dir ("model_from_text_" ++ filename ++ ".glb")
  match writeFile w output_path (FileData.bytes mockModelBytes) with
  | none => (w, Except.error ())
  | some w2 => (w2, Except.ok output_path)

/-- Model of tempfile.gettempdir. -/
def tempDir : String := "/tmp"

/-- BlenderIntegration.import_3d_model (blender_integration.py lines 35 to
113): existence check on the model, script generation to a temp path, the
external run modelled by its exit code (check=True turns a nonzero exit
into CalledProcessError, which the handler converts to None), and removal
of the script in the finally block on both outcomes. A failed script
write happens before the try block and therefore propagates. -/
def import_3d_model (w : World) (blender_path model_path : String)
    (blender_project_path : Option String) (now exitCode : Nat) :
    World × Except Unit (Option String) :=
  match lookupFile model_path w.files with
  | none => (w, Except.ok none)
  | some _ =>
    let proj :=
      match blender_project_path with
      | some p => p
      | none => pathJoin tempDir ("ideation_" ++ toString now ++ ".blend")
    let script_path := pathJoin tempDir "import_script.py"
    match writeFile w script_path
        (FileData.script "import_script" [blender_path, model_path, proj]) with
    | none => (w, Except.error ())
    | some w1 =>
      if exitCode = 0 then (removeFile w1 script_path, Except.ok (some proj))
      else (removeFile w1 script_path, Except.ok none)

/-- The string Python interpolates for a missing optional path (str(None)). -/
def orNoneStr (o : Option String) : String :=
  match o with
  | some p => p
  | none => "None"

/-- BlenderIntegration.create_ideation_scene (blender_integration.py lines
115 to 308): script generation from the session dictionary fields, the
external run modelled by its exit code, None on a nonzero exit, and
removal of the script in the finally block on both outcomes. -/
def create_ideation_scene (w : World) (blender_path : String)
    (session_data : SessionDict) (output_path : Option String)
    (now exitCode : Nat) : World × Except Unit (Option String) :=
  let out :=
    match output_path with
    | some p => p
    | none => pathJoin tempDir ("ideation_scene_" ++ toString now ++ ".blend")
  let script_path := pathJoin tempDir "create_ideation_scene.py"
  match writeFile w script_path
      (FileData.script "create_ideation_scene"
        [blender_path, orNoneStr session_data.sketch_3d_path,
          orNoneStr session_data.text_3d_path, session_data.title,
          session_data.project_type, session_data.genre, out]) with
  | none => (w, Except.error ())
  | some w1 =>
    if exitCode = 0 then (removeFile w1 script_path, Except.ok (some out))
    else (removeFile w1 script_path, Except.ok none)

/-- Asset directories of the application (app.py lines 24 to 28),
parameterized instead of being derived from the module location. -/
structure AppDirs where
  base : String
  sketches : String
  images : String
  models : String
  sessions : String

/-- BlenderIdeationApp.process_sketch (app.py lines 128 to 169) on an
active session: save the upload under sketches as id underscore filename,
set sketch_path, convert to an image and set rendered_image_path, convert
to 3D and set sketch_3d_path, stopping early when a step yields nothing.
The session object is mutated in place, so field updates made before an
uncaught exception persist; the Bool result records whether an exception
escaped the call. -/
def process_sketch (dirs : AppDirs) (w : World) (s : IdeationSession)
    (name : String) (contents : List Nat) : World × IdeationSession × Bool :=
  let sketch_path := pathJoin dirs.sketches (s.id ++ "_" ++ name)
  match writeFile w sketch_path (FileData.bytes contents) with
  | none => (w, s, true)
  | some w1 =>
    let s1 := { s with sketch_path := some sketch_path }
    match convert_sketch_to_image w1 sketch_path dirs.images with
    | (w2, none) => (w2, s1, false)
    | (w2, some image_path) =>
      let s2 := { s1 with rendered_image_path := some image_path }
      match sketch_to_3d w2 image_path dirs.models with
      | (w3, Except.error _) => (w3, s2, true)
      | (w3, Except.ok model_path) =>
        (w3, { s2 with sketch_3d_path := some model_path }, false)

/-- BlenderIdeationApp.generate_text_3d (app.py lines 171 to 207) on an
active session: use the Claude-generated prompt when the service is
available (modelled as the some case) or the fixed fallback template,
generate the model, set text_3d_path. -/
def generate_text_3d (dirs : AppDirs) (w : World) (s : IdeationSession)
    (claudePrompt : Option String) : World × IdeationSession × Bool :=
  let prompt :=
    match claudePrompt with
    | some p => p
    | none =>
      "A 3D " ++ s.title ++ " for a " ++ s.project_type ++ " in the " ++
        s.genre ++ " genre."
  match text_to_3d w prompt.data dirs.models with
  | (w1, Except.error _) => (w1, s, true)
  | (w1, Except.ok model_path) => (w1, { s with text_3d_path := some model_path }, false)

/-- BlenderIdeationApp.export_to_blender (app.py lines 231 to 262) on an
active session with the integration available: create the scene at base
slash id dot blend, set blender_file_path when a path comes back. -/
def export_to_blender (dirs : AppDirs) (w : World) (s : IdeationSession)
    (blender_path : String) (now exitCode : Nat) : World × IdeationSession × Bool :=
  match create_ideation_scene w blender_path (to_dict s)
      (some (pathJoin dirs.base (s.id ++ ".blend"))) now exitCode with
  | (w1, Except.error _) => (w1, s, true)
  | (w1, Except.ok none) => (w1, s, false)
  | (w1, Except.ok (some blend_file)) =>
    (w1, { s with blender_file_path := some blend_file }, false)

/-- BlenderIdeationApp.save_session (app.py lines 209 to 229) on an active
session: write the session dictionary as JSON under sessions; a write
failure is caught inside utils.save_session_to_json, so nothing escapes
and no session field changes. -/
def save_session (dirs : AppDirs) (w : World) (s : IdeationSession) :
    World × IdeationSession × Bool :=
  let session_path := pathJoin dirs.sessions (s.id ++ ".json")
  match writeFile w session_path (FileData.session (to_dict s)) with
  | none => (w, s, false)
  | some w1 => (w1, s, false)

/-- One orchestrator-level mutating operation on the current session. -/
inductive AppOp where
  | processSketch : String → List Nat → AppOp
  | generateText3d : Option String → AppOp
  | exportToBlender : String → Nat → Nat → AppOp
  | saveSession : AppOp

/-- Dispatch one operation. -/
def applyOp (dirs : AppDirs) (op : AppOp) (w : World) (s : IdeationSession) :
    World × IdeationSession × Bool :=
  match op with
  | AppOp.processSketch name contents => process_sketch dirs w s name contents
  | AppOp.generateText3d p => generate_text_3d dirs w s p
  | AppOp.exportToBlender bp now ec => export_to_blender dirs w s bp now ec
  | AppOp.saveSession => save_session dirs w s

/-- Run a sequence of operations, threading world and session (the UI event
loop keeps the session across steps, also after a step raised). -/
def runOps (dirs : AppDirs) : List AppOp → World → IdeationSession →
    World × IdeationSession
  | [], w, s => (w, s)
  | op :: ops, w, s =>
    let r := applyOp dirs op w s
    runOps dirs ops r.1 r.2.1

/-- The sketch-processing step is the only writer of sketch_path,
rendered_image_path and sketch_3d_path. -/
def AppOp.ownsSketchFields : AppOp → Bool
  | AppOp.processSketch _ _ => true
  | _ => false

/-- The text step is the only writer of text_3d_path. -/
def AppOp.ownsTextField : AppOp → Bool
  | AppOp.generateText3d _ => true
  | _ => false

/-- The export step is the only writer of blender_file_path. -/
def AppOp.ownsBlenderField : AppOp → Bool
  | AppOp.exportToBlender _ _ _ => true
  | _ => false


/-- String suffix test used to state path-shape properties. -/
def endsWithS (s t : String) : Bool := t.data.isSuffixOf s.data

/-- Whether a JSON value is a string. -/
def isStrJ : JVal → Bool
  | JVal.jstr _ => true
  | _ => false

/-- A small concrete image used to instantiate the theorems. -/
def demoImage : PyImage := PyImage.mk "RGBA" 1 1 [Pixel.mk 10 20 30 255]

/-- Concrete asset directories used to instantiate the orchestrator. -/
def demoDirs : AppDirs := AppDirs.mk "base" "sk" "im" "mo" "se"

/-- A world whose decoder accepts everything and whose filesystem accepts
every write. -/
def sketchWorld : World := World.mk [] (fun _ => some demoImage) (fun _ => true)

/-- A world whose filesystem rejects every write. -/
def failWorld : World := World.mk [] (fun _ => none) (fun _ => false)

/-- A world holding one decodable sketch file, with writes accepted. -/
def demoWorld : World :=
  World.mk [("in/sketch.png", FileData.image demoImage)] (fun _ => none) (fun _ => true)

/-- A fully populated session with valid timestamps. -/
def demoSession : IdeationSession :=
  IdeationSession.mk "abc" "Robot" "Video Game" "Sci-Fi" "desc" ["tag1", "x"]
    (PyDateTime.mk 2024 5 6 7 8 9 123456) (PyDateTime.mk 2023 12 31 23 59 59 0)
    (some "a") none (some "b") none none

/-- A fresh session with id abc and no artifacts yet. -/
def robotSession : IdeationSession :=
  IdeationSession.mk "abc" "3D robot" "Video Game" "Sci-Fi" "" []
    (PyDateTime.mk 2024 5 6 7 8 9 123456) (PyDateTime.mk 2024 5 6 7 8 9 123456)
    none none none none none

/-- First sketch-processing run of the re-invocation scenario. -/
def c8FirstRun : World × IdeationSession × Bool :=
  process_sketch demoDirs sketchWorld robotSession "a.png" [0]

/-- Second sketch-processing run, on the state left by the first, with a
different uploaded filename. -/
def c8SecondRun : World × IdeationSession × Bool :=
  process_sketch demoDirs c8FirstRun.1 c8FirstRun.2.1 "b.png" [0]

theorem dropWhile_append_of_all {α : Type} (p : α → Bool) (l₁ l₂ : List α)
    (h : ∀ a ∈ l₁, p a = true) :
    List.dropWhile p (l₁ ++ l₂) = List.dropWhile p l₂ := by
  induction l₁ with
  | nil => rfl
  | cons a l ih =>
    simp only [List.cons_append, List.dropWhile_cons, h a (by simp)]
    exact ih (fun a ha => h a (by simp [ha]))

theorem dropWhile_cons_of_neg {α : Type} (p : α → Bool) (a : α) (l : List α)
    (h : p a = false) :
    List.dropWhile p (a :: l) = a :: l := by
  simp [List.dropWhile_cons, h]

/-- On a text made of a bracket-free prefix, one bracketed body, and a
close-bracket-free suffix, the greedy regex span is exactly the bracketed
body. -/
theorem greedySpan_decomp (pre mid post : List Char)
    (hpre : ∀ c ∈ pre, c ≠ '[')
    (hpost : ∀ c ∈ post, c ≠ ']') :
    greedySpan (pre ++ ('[' :: mid ++ [']']) ++ post) = some ('[' :: mid ++ [']']) := by
  have h1 : List.dropWhile (fun c => c != '[') (pre ++ ('[' :: mid ++ [']']) ++ post)
      = ('[' :: mid ++ [']']) ++ post := by
    rw [List.append_assoc]
    rw [dropWhile_append_of_all _ pre _ (fun c hc => by simp [hpre c hc])]
    exact dropWhile_cons_of_neg _ _ _ (by simp)
  have h2 : (('[' :: mid ++ [']']) ++ post).reverse
      = post.reverse ++ (']' :: (mid.reverse ++ ['['])) := by
    simp
  have h3 : List.dropWhile (fun c => c != ']')
      (post.reverse ++ (']' :: (mid.reverse ++ ['['])))
      = ']' :: (mid.reverse ++ ['[']) := by
    rw [dropWhile_append_of_all _ post.reverse _
      (fun c hc => by simp [hpost c (List.mem_reverse.mp hc)])]
    exact dropWhile_cons_of_neg _ _ _ (by simp)
  unfold greedySpan
  rw [h1]
  simp only [h2, h3]
  simp

/-- A text with no open bracket yields no greedy span. -/
theorem greedySpan_no_bracket (s : List Char) (h : ∀ c ∈ s, c ≠ '[') :
    greedySpan s = none := by
  have h1 : List.dropWhile (fun c => c != '[') s = [] := by
    have := dropWhile_append_of_all (fun c => c != '[') s []
      (fun c hc => by simp [h c hc])
    simpa using this
  unfold greedySpan
  rw [h1]
  simp

theorem digitVal_digitChar (n : Nat) (h : n ≤ 9) : digitVal (digitChar n) = some n := by
  interval_cases n <;> rfl

theorem parse2_pad2 (n : Nat) (rest : List Char) (h : n ≤ 99) :
    parse2 (pad2 n ++ rest) = some (n, rest) := by
  have h1 : n / 10 ≤ 9 := by omega
  have h2 : n % 10 ≤ 9 := by omega
  simp [pad2, parse2, digitVal_digitChar _ h1, digitVal_digitChar _ h2]
  omega

theorem parse4_pad4 (n : Nat) (rest : List Char) (h : n ≤ 9999) :
    parse4 (pad4 n ++ rest) = some (n, rest) := by
  have h1 : n / 1000 ≤ 9 := by omega
  have h2 : n / 100 % 10 ≤ 9 := by omega
  have h3 : n / 10 % 10 ≤ 9 := by omega
  have h4 : n % 10 ≤ 9 := by omega
  simp [pad4, parse4, digitVal_digitChar _ h1, digitVal_digitChar _ h2,
    digitVal_digitChar _ h3, digitVal_digitChar _ h4]
  omega

theorem parse6_pad6 (n : Nat) (rest : List Char) (h : n ≤ 999999) :
    parse6 (pad6 n ++ rest) = some (n, rest) := by
  have h1 : n / 100000 ≤ 9 := by omega
  have h2 : n / 10000 % 10 ≤ 9 := by omega
  have h3 : n / 1000 % 10 ≤ 9 := by omega
  have h4 : n / 100 % 10 ≤ 9 := by omega
  have h5 : n / 10 % 10 ≤ 9 := by omega
  have h6 : n % 10 ≤ 9 := by omega
  simp [pad6, parse6, digitVal_digitChar _ h1, digitVal_digitChar _ h2,
    digitVal_digitChar _ h3, digitVal_digitChar _ h4, digitVal_digitChar _ h5,
    digitVal_digitChar _ h6]
  omega

theorem expectChar_cons (c : Char) (rest : List Char) :
    expectChar c (c :: rest) = some rest := by
  simp [expectChar]

theorem parse6_pad6_nil (n : Nat) (h : n ≤ 999999) :
    parse6 (pad6 n) = some (n, []) := by
  have := parse6_pad6 n [] h
  simpa using this

theorem daysInMonth_le_31 (y m : Nat) : daysInMonth y m ≤ 31 := by
  unfold daysInMonth
  split <;> (try split) <;> omega

set_option maxHeartbeats 1600000 in
/-- Parsing the isoformat rendering of a valid datetime recovers the value. -/
theorem fromiso_isoformat (d : PyDateTime) (h : validDT d) :
    fromisoformatDT (isoformatDT d) = some d := by
  obtain ⟨y, mo, da, hh, mi, s, us⟩ := d
  unfold validDT at h
  dsimp only at h
  obtain ⟨hy1, hy2, hm1, hm2, hd1, hd2, hhh, hmi, hs, hus⟩ := h
  have hd99 : da ≤ 99 := by
    have h31 : daysInMonth y mo ≤ 31 := daysInMonth_le_31 y mo
    omega
  have hmk : mkDateTime y mo da hh mi s us = some (PyDateTime.mk y mo da hh mi s us) := by
    unfold mkDateTime
    rw [if_pos]
    exact ⟨hy1, hy2, hm1, hm2, hd1, hd2, hhh, hmi, hs, hus⟩
  unfold isoformatDT fromisoformatDT
  dsimp only
  by_cases hus0 : us = 0
  · rw [if_pos hus0]
    rw [parse4_pad4 _ _ (by omega)]
    simp only [Option.bind_eq_bind, Option.some_bind, expectChar_cons]
    rw [parse2_pad2 _ _ (by omega)]
    simp only [Option.some_bind, expectChar_cons]
    rw [parse2_pad2 _ _ (by omega)]
    simp only [Option.some_bind, expectChar_cons]
    rw [parse2_pad2 _ _ (by omega)]
    simp only [Option.some_bind, expectChar_cons]
    rw [parse2_pad2 _ _ (by omega)]
    simp only [Option.some_bind, expectChar_cons]
    rw [parse2_pad2 _ _ (by omega)]
    simp only [Option.some_bind]
    rw [hus0] at hmk ⊢
    exact hmk
  · rw [if_neg hus0]
    rw [parse4_pad4 _ _ (by omega)]
    simp only [Option.bind_eq_bind, Option.some_bind, expectChar_cons]
    rw [parse2_pad2 _ _ (by omega)]
    simp only [Option.some_bind, expectChar_cons]
    rw [parse2_pad2 _ _ (by omega)]
    simp only [Option.some_bind, expectChar_cons]
    rw [parse2_pad2 _ _ (by omega)]
    simp only [Option.some_bind, expectChar_cons]
    rw [parse2_pad2 _ _ (by omega)]
    simp only [Option.some_bind, expectChar_cons]
    rw [parse2_pad2 _ _ (by omega)]
    simp only [Option.some_bind]
    rw [parse6_pad6_nil _ (by omega)]
    exact hmk


theorem takeWhile_append_of_all {α : Type} (p : α → Bool) (l₁ : List α) (b : α)
    (l₂ : List α) (h : ∀ a ∈ l₁, p a = true) (hb : p b = false) :
    List.takeWhile p (l₁ ++ b :: l₂) = l₁ := by
  induction l₁ with
  | nil => simp [List.takeWhile_cons, hb]
  | cons a l ih =>
    simp only [List.cons_append, List.takeWhile_cons, h a (by simp)]
    rw [ih (fun a ha => h a (by simp [ha]))]
    simp

theorem baseName_pathJoin (d n : String) (h : ∀ c ∈ n.data, c ≠ '/') :
    baseName (pathJoin d n) = n := by
  unfold baseName pathJoin baseNameL
  have hdata : (d ++ "/" ++ n).data = (d.data ++ ['/']) ++ n.data := by
    simp [String.data_append]
  rw [hdata]
  have hrev : ((d.data ++ ['/']) ++ n.data).reverse
      = n.data.reverse ++ '/' :: d.data.reverse := by
    simp
  rw [hrev]
  rw [takeWhile_append_of_all _ n.data.reverse '/' d.data.reverse
    (fun a ha => by simp [h a (List.mem_reverse.mp ha)]) (by simp)]
  rw [List.reverse_reverse]

theorem lookupFile_cons_self (p : String) (fd : FileData)
    (l : List (String × FileData)) : lookupFile p ((p, fd) :: l) = some fd := by
  simp [lookupFile]

theorem lookupFile_removeAll (p : String) (l : List (String × FileData)) :
    lookupFile p (l.filter (fun kv => decide (kv.1 ≠ p))) = none := by
  induction l with
  | nil => rfl
  | cons kv rest ih =>
    obtain ⟨q, fd⟩ := kv
    rw [List.filter_cons]
    by_cases hk : q = p
    · rw [if_neg (by simp [hk])]
      exact ih
    · rw [if_pos (by simp [hk])]
      simp only [lookupFile]
      rw [if_neg hk]
      exact ih

theorem writeFile_some (w : World) (p : String) (fd : FileData)
    (hw : w.writable p = true) :
    writeFile w p fd = some (World.mk ((p, fd) :: w.files) w.decode w.writable) := by
  unfold writeFile
  rw [if_pos hw]

theorem writeFile_none (w : World) (p : String) (fd : FileData)
    (hw : w.writable p = false) : writeFile w p fd = none := by
  unfold writeFile
  rw [if_neg (by simp [hw])]

/-- C1: for every session with valid timestamp fields, to_dict followed by
from_dict returns the original session in every field, the ISO-8601
rendered created_at and updated_at timestamps included. -/
theorem C1_session_roundtrip (s : IdeationSession)
    (hc : validDT s.created_at) (hu : validDT s.updated_at) :
    from_dict (to_dict s) = some s := by
  obtain ⟨i, ti, pt, ge, de, tg, ca, ua, p1, p2, p3, p4, p5⟩ := s
  simp only at hc hu
  unfold to_dict from_dict
  simp only [fromiso_isoformat _ hc, fromiso_isoformat _ hu]

/-- C1 witness: the round trip at a concrete fully populated session. -/
theorem C1_session_roundtrip_witness :
    validDT demoSession.created_at ∧ validDT demoSession.updated_at ∧
      from_dict (to_dict demoSession) = some demoSession :=
  ⟨by decide, by decide, C1_session_roundtrip demoSession (by decide) (by decide)⟩

/-- C2 (counterexample): the text x space bracket 1 comma 2 close-bracket
space y space close-bracket contains exactly one valid JSON array literal,
yet extract_tags and suggest_improvements return the empty list on it,
because the greedy regex span runs to the final stray close bracket and
fails to parse. -/
theorem C2_counterexample :
    String.data "x " ++ String.data "[1, 2]" ++ String.data " y ]" =
      String.data "x [1, 2] y ]" ∧
    jsonLoads (String.data "[1, 2]") = some (JVal.jarr [JVal.jnum 1, JVal.jnum 2]) ∧
    extract_tags (String.data "x [1, 2] y ]") 10 = [] ∧
    suggest_improvements (String.data "x [1, 2] y ]") = [] :=
  ⟨rfl, rfl, rfl, rfl⟩

/-- C2 (amended): the shared extraction returns an empty list, never an
error, on any text without an open bracket; and it returns exactly the
parsed array whenever the text decomposes as a prefix with no open
bracket, one bracketed span parsing as a JSON array, and a suffix with no
close bracket, so that the greedy regex span is that bracketed span. -/
theorem C2_extraction_amended :
    (∀ (resp : List Char) (m : Nat), (∀ c ∈ resp, c ≠ '[') →
      extract_tags resp m = [] ∧ suggest_improvements resp = []) ∧
    (∀ (pre mid post : List Char) (arr : List JVal) (m : Nat),
      (∀ c ∈ pre, c ≠ '[') → (∀ c ∈ post, c ≠ ']') →
      jsonLoads ('[' :: mid ++ [']']) = some (JVal.jarr arr) →
      extract_tags (pre ++ ('[' :: mid ++ [']']) ++ post) m = arr ∧
        suggest_improvements (pre ++ ('[' :: mid ++ [']']) ++ post) = arr) := by
  constructor
  · intro resp m h
    have hx : extractArray resp = [] := by
      unfold extractArray
      rw [greedySpan_no_bracket resp h]
    exact ⟨hx, hx⟩
  · intro pre mid post arr m hpre hpost hparse
    have hx : extractArray (pre ++ ('[' :: mid ++ [']']) ++ post) = arr := by
      unfold extractArray
      rw [greedySpan_decomp pre mid post hpre hpost]
      dsimp only
      rw [hparse]
    exact ⟨hx, hx⟩

/-- C2 witness: both amended branches at concrete inputs. -/
theorem C2_extraction_amended_witness :
    (extract_tags (String.data "no array here") 5 = [] ∧
      suggest_improvements (String.data "no array here") = []) ∧
    (extract_tags (String.data "ok: " ++ ('[' :: String.data "1" ++ [']']) ++
        String.data " end") 5 = [JVal.jnum 1] ∧
      suggest_improvements (String.data "ok: " ++ ('[' :: String.data "1" ++ [']']) ++
        String.data " end") = [JVal.jnum 1]) :=
  ⟨C2_extraction_amended.1 (String.data "no array here") 5 (by decide),
    C2_extraction_amended.2 (String.data "ok: ") (String.data "1")
      (String.data " end") [JVal.jnum 1] 5 (by decide) (by decide) (by rfl)⟩

/-- C5: Mock3DGenerator.sketch_to_3d and text_to_3d hold no exception
handler, so a filesystem write failure propagates to the caller instead of
being absorbed into None; evaluated on a world whose filesystem rejects
every write. -/
theorem C5_write_failure_raises :
    (sketch_to_3d failWorld "img.png" "out").2 = Except.error () ∧
    (text_to_3d failWorld (String.data "a prompt") "out").2 = Except.error () :=
  ⟨rfl, rfl⟩

/-- C10: extract_tags never enforces max_tags on the parsed result and
never validates element types: the result is independent of max_tags
(which only changes the request prompt), a three-element numeric array
comes back whole under max_tags two, and none of its elements is a JSON
string. -/
theorem C10_max_tags_not_enforced :
    (∀ (m1 m2 : Nat) (resp : List Char), extract_tags resp m1 = extract_tags resp m2) ∧
    ((extractTagsPrompt "robot" 2 == extractTagsPrompt "robot" 3) = false) ∧
    (∀ m : Nat, extract_tags (String.data "[1, 2, 3]") m =
      [JVal.jnum 1, JVal.jnum 2, JVal.jnum 3]) ∧
    (extract_tags (String.data "[1, 2, 3]") 2).length = 3 ∧
    (extract_tags (String.data "[1, 2, 3]") 2).map isStrJ = [false, false, false] :=
  ⟨fun _ _ _ => rfl, by decide, fun _ => rfl, rfl, rfl⟩

/-- C3: on an input that decodes as an image and a writable output
location, convert_sketch_to_image returns the path under the output
directory named rendered_ plus the input base name, and the world then
holds the tinted image (RGB 100 100 255 at intensity 0.3) at that path; on
an input that does not decode it returns None and creates nothing. -/
theorem C3_convert_sketch_to_image (w : World) (sp dir : String) :
    (∀ img, openImage w sp = some img →
      w.writable (pathJoin dir ("rendered_" ++ baseName sp)) = true →
      convert_sketch_to_image w sp dir =
        (World.mk ((pathJoin dir ("rendered_" ++ baseName sp),
            FileData.image (add_color_tint img 100 100 255 (3 / 10))) :: w.files)
          w.decode w.writable,
          some (pathJoin dir ("rendered_" ++ baseName sp))) ∧
      lookupFile (pathJoin dir ("rendered_" ++ baseName sp))
        (convert_sketch_to_image w sp dir).1.files =
        some (FileData.image (add_color_tint img 100 100 255 (3 / 10)))) ∧
    (openImage w sp = none → convert_sketch_to_image w sp dir = (w, none)) := by
  constructor
  · intro img hopen hw
    have heq : convert_sketch_to_image w sp dir =
        (World.mk ((pathJoin dir ("rendered_" ++ baseName sp),
            FileData.image (add_color_tint img 100 100 255 (3 / 10))) :: w.files)
          w.decode w.writable,
          some (pathJoin dir ("rendered_" ++ baseName sp))) := by
      unfold convert_sketch_to_image
      rw [hopen]
      dsimp only
      rw [writeFile_some _ _ _ hw]
    refine ⟨heq, ?_⟩
    rw [heq]
    exact lookupFile_cons_self _ _ _
  · intro hnone
    unfold convert_sketch_to_image
    rw [hnone]

/-- C3 witness: both branches at concrete worlds. -/
theorem C3_convert_sketch_to_image_witness :
    openImage demoWorld "in/sketch.png" = some demoImage ∧
    demoWorld.writable (pathJoin "out" ("rendered_" ++ baseName "in/sketch.png")) = true ∧
    convert_sketch_to_image demoWorld "in/sketch.png" "out" =
      (World.mk ((pathJoin "out" ("rendered_" ++ baseName "in/sketch.png"),
          FileData.image (add_color_tint demoImage 100 100 255 (3 / 10))) :: demoWorld.files)
        demoWorld.decode demoWorld.writable,
        some (pathJoin "out" ("rendered_" ++ baseName "in/sketch.png"))) ∧
    convert_sketch_to_image failWorld "missing.png" "out" = (failWorld, none) :=
  ⟨rfl, rfl,
    ((C3_convert_sketch_to_image demoWorld "in/sketch.png" "out").1 demoImage rfl rfl).1,
    (C3_convert_sketch_to_image failWorld "missing.png" "out").2 rfl⟩

/-- C4: sketch_to_3d returns the output directory joined with
model_from_sketch_ plus the input base name plus .glb, text_to_3d returns
the output directory joined with model_from_text_ plus the slug of the
prompt plus .glb, and in both cases the placeholder bytes (thirteen of
them, so nonempty) are stored at the returned path, whenever the
filesystem accepts the write. -/
theorem C4_mock3d_derived_paths (w : World) (image_path dir : String)
    (prompt : List Char)
    (h1 : w.writable (pathJoin dir
      ("model_from_sketch_" ++ baseName image_path ++ ".glb")) = true)
    (h2 : w.writable (pathJoin dir
      ("model_from_text_" ++ String.mk (textSlug prompt) ++ ".glb")) = true) :
    sketch_to_3d w image_path dir =
      (World.mk ((pathJoin dir ("model_from_sketch_" ++ baseName image_path ++ ".glb"),
          FileData.bytes mockModelBytes) :: w.files) w.decode w.writable,
        Except.ok (pathJoin dir ("model_from_sketch_" ++ baseName image_path ++ ".glb"))) ∧
    text_to_3d w prompt dir =
      (World.mk ((pathJoin dir ("model_from_text_" ++ String.mk (textSlug prompt) ++ ".glb"),
          FileData.bytes mockModelBytes) :: w.files) w.decode w.writable,
        Except.ok (pathJoin dir ("model_from_text_" ++ String.mk (textSlug prompt) ++ ".glb"))) ∧
    lookupFile (pathJoin dir ("model_from_sketch_" ++ baseName image_path ++ ".glb"))
      (sketch_to_3d w image_path dir).1.files = some (FileData.bytes mockModelBytes) ∧
    lookupFile (pathJoin dir ("model_from_text_" ++ String.mk (textSlug prompt) ++ ".glb"))
      (text_to_3d w prompt dir).1.files = some (FileData.bytes mockModelBytes) ∧
    mockModelBytes.length = 13 := by
  have hs : sketch_to_3d w image_path dir =
      (World.mk ((pathJoin dir ("model_from_sketch_" ++ baseName image_path ++ ".glb"),
          FileData.bytes mockModelBytes) :: w.files) w.decode w.writable,
        Except.ok (pathJoin dir ("model_from_sketch_" ++ baseName image_path ++ ".glb"))) := by
    unfold sketch_to_3d
    dsimp only
    rw [writeFile_some _ _ _ h1]
  have ht : text_to_3d w prompt dir =
      (World.mk ((pathJoin dir ("model_from_text_" ++ String.mk (textSlug prompt) ++ ".glb"),
          FileData.bytes mockModelBytes) :: w.files) w.decode w.writable,
        Except.ok (pathJoin dir ("model_from_text_" ++ String.mk (textSlug prompt) ++ ".glb"))) := by
    unfold text_to_3d
    dsimp only
    rw [writeFile_some _ _ _ h2]
  refine ⟨hs, ht, ?_, ?_, rfl⟩
  · rw [hs]
    exact lookupFile_cons_self _ _ _
  · rw [ht]
    exact lookupFile_cons_self _ _ _

/-- C4 witness: derived paths at a concrete image path and prompt. -/
theorem C4_mock3d_derived_paths_witness :
    demoWorld.writable (pathJoin "m"
      ("model_from_sketch_" ++ baseName "a/b.png" ++ ".glb")) = true ∧
    demoWorld.writable (pathJoin "m"
      ("model_from_text_" ++ String.mk (textSlug (String.data "Make Me A robot")) ++
        ".glb")) = true ∧
    (sketch_to_3d demoWorld "a/b.png" "m").2 =
      Except.ok "m/model_from_sketch_b.png.glb" ∧
    (text_to_3d demoWorld (String.data "Make Me A robot") "m").2 =
      Except.ok "m/model_from_text_make_me_a.glb" := by
  have h := C4_mock3d_derived_paths demoWorld "a/b.png" "m"
    (String.data "Make Me A robot") rfl rfl
  refine ⟨rfl, rfl, ?_, ?_⟩
  · rw [h.1]
    rfl
  · rw [h.2.1]
    rfl

theorem no_slash_append (a b : String) (ha : ∀ c ∈ a.data, c ≠ '/')
    (hb : ∀ c ∈ b.data, c ≠ '/') : ∀ c ∈ (a ++ b).data, c ≠ '/' := by
  intro c hc
  rw [String.data_append] at hc
  rcases List.mem_append.mp hc with h | h
  · exact ha c h
  · exact hb c h

/-- C7: the two Blender-driving operations delete the generated automation
script on the success path and on the failure path alike; a missing input
model or a nonzero external exit code yields None, and the external run
never lets an exception through (the result is ok in every case). -/
theorem C7_script_lifecycle :
    (∀ (w : World) (bp mp : String) (proj : Option String) (now ec : Nat),
      lookupFile mp w.files = none →
      import_3d_model w bp mp proj now ec = (w, Except.ok none)) ∧
    (∀ (w : World) (bp mp proj : String) (now ec : Nat) (fd : FileData),
      lookupFile mp w.files = some fd →
      w.writable (pathJoin tempDir "import_script.py") = true →
      (import_3d_model w bp mp (some proj) now ec).2 =
        Except.ok (if ec = 0 then some proj else none) ∧
      lookupFile (pathJoin tempDir "import_script.py")
        (import_3d_model w bp mp (some proj) now ec).1.files = none) ∧
    (∀ (w : World) (bp : String) (sd : SessionDict) (outp : String) (now ec : Nat),
      w.writable (pathJoin tempDir "create_ideation_scene.py") = true →
      (create_ideation_scene w bp sd (some outp) now ec).2 =
        Except.ok (if ec = 0 then some outp else none) ∧
      lookupFile (pathJoin tempDir "create_ideation_scene.py")
        (create_ideation_scene w bp sd (some outp) now ec).1.files = none) := by
  refine ⟨?_, ?_, ?_⟩
  · intro w bp mp proj now ec hmiss
    unfold import_3d_model
    rw [hmiss]
  · intro w bp mp proj now ec fd hfound hwr
    unfold import_3d_model
    rw [hfound]
    dsimp only
    rw [writeFile_some _ _ _ hwr]
    dsimp only
    by_cases hec : ec = 0
    · rw [if_pos hec, if_pos hec]
      exact ⟨rfl, lookupFile_removeAll _ _⟩
    · rw [if_neg hec, if_neg hec]
      exact ⟨rfl, lookupFile_removeAll _ _⟩
  · intro w bp sd outp now ec hwr
    unfold create_ideation_scene
    dsimp only
    rw [writeFile_some _ _ _ hwr]
    dsimp only
    by_cases hec : ec = 0
    · rw [if_pos hec, if_pos hec]
      exact ⟨rfl, lookupFile_removeAll _ _⟩
    · rw [if_neg hec, if_neg hec]
      exact ⟨rfl, lookupFile_removeAll _ _⟩

/-- C7 witness: all three branches at concrete inputs, with exit code one
on the import and exit code zero on the scene creation. -/
theorem C7_script_lifecycle_witness :
    (lookupFile "nofile.glb" failWorld.files = none ∧
      import_3d_model failWorld "bl" "nofile.glb" none 5 0 =
        (failWorld, Except.ok none)) ∧
    (lookupFile "in/sketch.png" demoWorld.files = some (FileData.image demoImage) ∧
      demoWorld.writable (pathJoin tempDir "import_script.py") = true ∧
      (import_3d_model demoWorld "bl" "in/sketch.png" (some "proj.blend") 5 1).2 =
        Except.ok (if 1 = 0 then some "proj.blend" else none) ∧
      lookupFile (pathJoin tempDir "import_script.py")
        (import_3d_model demoWorld "bl" "in/sketch.png" (some "proj.blend") 5 1).1.files =
        none) ∧
    (demoWorld.writable (pathJoin tempDir "create_ideation_scene.py") = true ∧
      (create_ideation_scene demoWorld "bl" (to_dict demoSession) (some "o.blend") 5 0).2 =
        Except.ok (if 0 = 0 then some "o.blend" else none) ∧
      lookupFile (pathJoin tempDir "create_ideation_scene.py")
        (create_ideation_scene demoWorld "bl" (to_dict demoSession)
          (some "o.blend") 5 0).1.files = none) := by
  refine ⟨⟨rfl, C7_script_lifecycle.1 failWorld "bl" "nofile.glb" none 5 0 rfl⟩,
    ⟨rfl, rfl, ?_⟩, ⟨rfl, ?_⟩⟩
  · exact C7_script_lifecycle.2.1 demoWorld "bl" "in/sketch.png" "proj.blend" 5 1
      (FileData.image demoImage) rfl rfl
  · exact C7_script_lifecycle.2.2 demoWorld "bl" (to_dict demoSession) "o.blend" 5 0 rfl

/-- C6 (counterexample): processing an uploaded sketch named robot.png in a
session with id abc yields a rendered path ending in
rendered_abc_robot.png, not rendered_robot.png, and a model path ending in
model_from_sketch_rendered_abc_robot.png.glb, not
model_from_sketch_rendered_robot.png.glb, because the saved upload is
prefixed with the session id. -/
theorem C6_counterexample :
    (process_sketch demoDirs sketchWorld robotSession "robot.png" [0]).2.1.rendered_image_path
      = some "im/rendered_abc_robot.png" ∧
    endsWithS "im/rendered_abc_robot.png" "rendered_robot.png" = false ∧
    (process_sketch demoDirs sketchWorld robotSession "robot.png" [0]).2.1.sketch_3d_path
      = some "mo/model_from_sketch_rendered_abc_robot.png.glb" ∧
    endsWithS "mo/model_from_sketch_rendered_abc_robot.png.glb"
      "model_from_sketch_rendered_robot.png.glb" = false :=
  ⟨rfl, by decide, rfl, by decide⟩

/-- C6 (amended): with a decodable upload and a writable filesystem, the
sketch step on an upload named robot.png yields the rendered path
rendered_ plus the session id plus _robot.png under the images directory,
and the model path model_from_sketch_ plus that rendered name plus .glb
under the models directory. -/
theorem C6_sketch_pipeline_paths (dirs : AppDirs) (w : World) (s : IdeationSession)
    (img : PyImage) (contents : List Nat)
    (hid : ∀ c ∈ s.id.data, c ≠ '/')
    (hdec : w.decode contents = some img)
    (hw : ∀ p, w.writable p = true) :
    (process_sketch dirs w s "robot.png" contents).2.1.rendered_image_path =
      some (pathJoin dirs.images ("rendered_" ++ (s.id ++ "_" ++ "robot.png"))) ∧
    (process_sketch dirs w s "robot.png" contents).2.1.sketch_3d_path =
      some (pathJoin dirs.models
        ("model_from_sketch_" ++ ("rendered_" ++ (s.id ++ "_" ++ "robot.png")) ++ ".glb")) := by
  have hname : ∀ c ∈ (s.id ++ "_" ++ "robot.png").data, c ≠ '/' :=
    no_slash_append _ _ (no_slash_append _ _ hid (by decide)) (by decide)
  have hname2 : ∀ c ∈ ("rendered_" ++ (s.id ++ "_" ++ "robot.png")).data, c ≠ '/' :=
    no_slash_append _ _ (by decide) hname
  have hopen : openImage
      (World.mk ((pathJoin dirs.sketches (s.id ++ "_" ++ "robot.png"),
        FileData.bytes contents) :: w.files) w.decode w.writable)
      (pathJoin dirs.sketches (s.id ++ "_" ++ "robot.png")) = some img := by
    unfold openImage
    rw [lookupFile_cons_self]
    exact hdec
  unfold process_sketch
  simp only [convert_sketch_to_image, sketch_to_3d, hopen, writeFile_some, hw,
    baseName_pathJoin _ _ hname, baseName_pathJoin _ _ hname2]
  exact ⟨by trivial, by trivial⟩

/-- C6 witness: the amended pipeline paths at the concrete session. -/
theorem C6_sketch_pipeline_paths_witness :
    sketchWorld.decode [0] = some demoImage ∧
    (process_sketch demoDirs sketchWorld robotSession "robot.png" [0]).2.1.rendered_image_path =
      some (pathJoin demoDirs.images ("rendered_" ++ ("abc" ++ "_" ++ "robot.png"))) ∧
    (process_sketch demoDirs sketchWorld robotSession "robot.png" [0]).2.1.sketch_3d_path =
      some (pathJoin demoDirs.models
        ("model_from_sketch_" ++ ("rendered_" ++ ("abc" ++ "_" ++ "robot.png")) ++ ".glb")) := by
  have h := C6_sketch_pipeline_paths demoDirs sketchWorld robotSession demoImage [0]
    (by decide) rfl (fun _ => rfl)
  exact ⟨rfl, h.1, h.2⟩

theorem process_sketch_fields (dirs : AppDirs) (w : World) (s : IdeationSession)
    (name : String) (contents : List Nat) :
    (process_sketch dirs w s name contents).2.1.text_3d_path = s.text_3d_path ∧
    (process_sketch dirs w s name contents).2.1.blender_file_path = s.blender_file_path ∧
    (process_sketch dirs w s name contents).2.1.created_at = s.created_at ∧
    (process_sketch dirs w s name contents).2.1.updated_at = s.updated_at ∧
    ((process_sketch dirs w s name contents).2.1.sketch_path = s.sketch_path ∨
      (process_sketch dirs w s name contents).2.1.sketch_path.isSome = true) ∧
    ((process_sketch dirs w s name contents).2.1.rendered_image_path = s.rendered_image_path ∨
      (process_sketch dirs w s name contents).2.1.rendered_image_path.isSome = true) ∧
    ((process_sketch dirs w s name contents).2.1.sketch_3d_path = s.sketch_3d_path ∨
      (process_sketch dirs w s name contents).2.1.sketch_3d_path.isSome = true) := by
  simp only [process_sketch]
  split
  · simp
  · split
    · simp
    · split <;> simp

theorem generate_text_3d_fields (dirs : AppDirs) (w : World) (s : IdeationSession)
    (p : Option String) :
    (generate_text_3d dirs w s p).2.1.sketch_path = s.sketch_path ∧
    (generate_text_3d dirs w s p).2.1.rendered_image_path = s.rendered_image_path ∧
    (generate_text_3d dirs w s p).2.1.sketch_3d_path = s.sketch_3d_path ∧
    (generate_text_3d dirs w s p).2.1.blender_file_path = s.blender_file_path ∧
    (generate_text_3d dirs w s p).2.1.created_at = s.created_at ∧
    (generate_text_3d dirs w s p).2.1.updated_at = s.updated_at ∧
    ((generate_text_3d dirs w s p).2.1.text_3d_path = s.text_3d_path ∨
      (generate_text_3d dirs w s p).2.1.text_3d_path.isSome = true) := by
  simp only [generate_text_3d]
  split <;> simp

theorem export_to_blender_fields (dirs : AppDirs) (w : World) (s : IdeationSession)
    (bp : String) (now ec : Nat) :
    (export_to_blender dirs w s bp now ec).2.1.sketch_path = s.sketch_path ∧
    (export_to_blender dirs w s bp now ec).2.1.rendered_image_path = s.rendered_image_path ∧
    (export_to_blender dirs w s bp now ec).2.1.sketch_3d_path = s.sketch_3d_path ∧
    (export_to_blender dirs w s bp now ec).2.1.text_3d_path = s.text_3d_path ∧
    (export_to_blender dirs w s bp now ec).2.1.created_at = s.created_at ∧
    (export_to_blender dirs w s bp now ec).2.1.updated_at = s.updated_at ∧
    ((export_to_blender dirs w s bp now ec).2.1.blender_file_path = s.blender_file_path ∨
      (export_to_blender dirs w s bp now ec).2.1.blender_file_path.isSome = true) := by
  simp only [export_to_blender]
  split <;> simp

theorem save_session_session_unchanged (dirs : AppDirs) (w : World)
    (s : IdeationSession) : (save_session dirs w s).2.1 = s := by
  simp only [save_session]
  split <;> rfl

/-- C8 (counterexample): re-invoking the sketch step with a different
uploaded filename overwrites the already populated sketch_path field with
a different value; the guard against re-processing lives only in the
presentation layer. -/
theorem C8_counterexample :
    c8FirstRun.2.1.sketch_path = some "sk/abc_a.png" ∧
    c8SecondRun.2.1.sketch_path = some "sk/abc_b.png" ∧
    ((some "sk/abc_a.png" : Option String) == some "sk/abc_b.png") = false :=
  ⟨rfl, rfl, by decide⟩

/-- C8 (amended): each artifact field is written only by its own pipeline
step: any operation that is not the sketch step preserves sketch_path,
rendered_image_path and sketch_3d_path; any operation that is not the text
step preserves text_3d_path; any operation that is not the export step
preserves blender_file_path; and no operation ever clears a populated
field, so a populated field can only change by re-running its own step
with different input (which the data layer does not prevent). -/
theorem C8_field_ownership :
    (∀ (dirs : AppDirs) (op : AppOp) (w : World) (s : IdeationSession),
      AppOp.ownsSketchFields op = false →
      (applyOp dirs op w s).2.1.sketch_path = s.sketch_path ∧
      (applyOp dirs op w s).2.1.rendered_image_path = s.rendered_image_path ∧
      (applyOp dirs op w s).2.1.sketch_3d_path = s.sketch_3d_path) ∧
    (∀ (dirs : AppDirs) (op : AppOp) (w : World) (s : IdeationSession),
      AppOp.ownsTextField op = false →
      (applyOp dirs op w s).2.1.text_3d_path = s.text_3d_path) ∧
    (∀ (dirs : AppDirs) (op : AppOp) (w : World) (s : IdeationSession),
      AppOp.ownsBlenderField op = false →
      (applyOp dirs op w s).2.1.blender_file_path = s.blender_file_path) ∧
    (∀ (dirs : AppDirs) (op : AppOp) (w : World) (s : IdeationSession),
      (s.sketch_path.isSome = true →
        (applyOp dirs op w s).2.1.sketch_path.isSome = true) ∧
      (s.rendered_image_path.isSome = true →
        (applyOp dirs op w s).2.1.rendered_image_path.isSome = true) ∧
      (s.sketch_3d_path.isSome = true →
        (applyOp dirs op w s).2.1.sketch_3d_path.isSome = true) ∧
      (s.text_3d_path.isSome = true →
        (applyOp dirs op w s).2.1.text_3d_path.isSome = true) ∧
      (s.blender_file_path.isSome = true →
        (applyOp dirs op w s).2.1.blender_file_path.isSome = true)) := by
  refine ⟨?_, ?_, ?_, ?_⟩
  · intro dirs op w s hop
    cases op with
    | processSketch n c => simp [AppOp.ownsSketchFields] at hop
    | generateText3d p =>
      have h := generate_text_3d_fields dirs w s p
      exact ⟨h.1, h.2.1, h.2.2.1⟩
    | exportToBlender bp now ec =>
      have h := export_to_blender_fields dirs w s bp now ec
      exact ⟨h.1, h.2.1, h.2.2.1⟩
    | saveSession =>
      have h := save_session_session_unchanged dirs w s
      simp only [applyOp, h]
      exact ⟨trivial, trivial, trivial⟩
  · intro dirs op w s hop
    cases op with
    | processSketch n c => exact (process_sketch_fields dirs w s n c).1
    | generateText3d p => simp [AppOp.ownsTextField] at hop
    | exportToBlender bp now ec => exact (export_to_blender_fields dirs w s bp now ec).2.2.2.1
    | saveSession =>
      have h := save_session_session_unchanged dirs w s
      simp only [applyOp, h]
  · intro dirs op w s hop
    cases op with
    | processSketch n c => exact (process_sketch_fields dirs w s n c).2.1
    | generateText3d p => exact (generate_text_3d_fields dirs w s p).2.2.2.1
    | exportToBlender bp now ec => simp [AppOp.ownsBlenderField] at hop
    | saveSession =>
      have h := save_session_session_unchanged dirs w s
      simp only [applyOp, h]
  · intro dirs op w s
    cases op with
    | processSketch n c =>
      have h := process_sketch_fields dirs w s n c
      refine ⟨?_, ?_, ?_, ?_, ?_⟩
      · intro hs
        rcases h.2.2.2.2.1 with h1 | h1
        · rw [show (applyOp dirs (AppOp.processSketch n c) w s).2.1.sketch_path =
            s.sketch_path from h1]
          exact hs
        · exact h1
      · intro hs
        rcases h.2.2.2.2.2.1 with h1 | h1
        · rw [show (applyOp dirs (AppOp.processSketch n c) w s).2.1.rendered_image_path =
            s.rendered_image_path from h1]
          exact hs
        · exact h1
      · intro hs
        rcases h.2.2.2.2.2.2 with h1 | h1
        · rw [show (applyOp dirs (AppOp.processSketch n c) w s).2.1.sketch_3d_path =
            s.sketch_3d_path from h1]
          exact hs
        · exact h1
      · intro hs
        rw [show (applyOp dirs (AppOp.processSketch n c) w s).2.1.text_3d_path =
          s.text_3d_path from h.1]
        exact hs
      · intro hs
        rw [show (applyOp dirs (AppOp.processSketch n c) w s).2.1.blender_file_path =
          s.blender_file_path from h.2.1]
        exact hs
    | generateText3d p =>
      have h := generate_text_3d_fields dirs w s p
      refine ⟨fun hs => ?_, fun hs => ?_, fun hs => ?_, fun hs => ?_, fun hs => ?_⟩
      · rw [show (applyOp dirs (AppOp.generateText3d p) w s).2.1.sketch_path =
          s.sketch_path from h.1]; exact hs
      · rw [show (applyOp dirs (AppOp.generateText3d p) w s).2.1.rendered_image_path =
          s.rendered_image_path from h.2.1]; exact hs
      · rw [show (applyOp dirs (AppOp.generateText3d p) w s).2.1.sketch_3d_path =
          s.sketch_3d_path from h.2.2.1]; exact hs
      · rcases h.2.2.2.2.2.2 with h1 | h1
        · rw [show (applyOp dirs (AppOp.generateText3d p) w s).2.1.text_3d_path =
            s.text_3d_path from h1]; exact hs
        · exact h1
      · rw [show (applyOp dirs (AppOp.generateText3d p) w s).2.1.blender_file_path =
          s.blender_file_path from h.2.2.2.1]; exact hs
    | exportToBlender bp now ec =>
      have h := export_to_blender_fields dirs w s bp now ec
      refine ⟨fun hs => ?_, fun hs => ?_, fun hs => ?_, fun hs => ?_, fun hs => ?_⟩
      · rw [show (applyOp dirs (AppOp.exportToBlender bp now ec) w s).2.1.sketch_path =
          s.sketch_path from h.1]; exact hs
      · rw [show (applyOp dirs (AppOp.exportToBlender bp now ec) w s).2.1.rendered_image_path =
          s.rendered_image_path from h.2.1]; exact hs
      · rw [show (applyOp dirs (AppOp.exportToBlender bp now ec) w s).2.1.sketch_3d_path =
          s.sketch_3d_path from h.2.2.1]; exact hs
      · rw [show (applyOp dirs (AppOp.exportToBlender bp now ec) w s).2.1.text_3d_path =
          s.text_3d_path from h.2.2.2.1]; exact hs
      · rcases h.2.2.2.2.2.2 with h1 | h1
        · rw [show (applyOp dirs (AppOp.exportToBlender bp now ec) w s).2.1.blender_file_path =
            s.blender_file_path from h1]; exact hs
        · exact h1
    | saveSession =>
      have h : (applyOp dirs AppOp.saveSession w s).2.1 = s :=
        save_session_session_unchanged dirs w s
      rw [h]
      exact ⟨fun hs => hs, fun hs => hs, fun hs => hs, fun hs => hs, fun hs => hs⟩

/-- C8 witness: each part at one concrete operation and session. -/
theorem C8_field_ownership_witness :
    ((applyOp demoDirs AppOp.saveSession sketchWorld demoSession).2.1.sketch_path =
        demoSession.sketch_path ∧
      (applyOp demoDirs AppOp.saveSession sketchWorld demoSession).2.1.rendered_image_path =
        demoSession.rendered_image_path ∧
      (applyOp demoDirs AppOp.saveSession sketchWorld demoSession).2.1.sketch_3d_path =
        demoSession.sketch_3d_path) ∧
    (applyOp demoDirs AppOp.saveSession sketchWorld demoSession).2.1.text_3d_path =
      demoSession.text_3d_path ∧
    (applyOp demoDirs AppOp.saveSession sketchWorld demoSession).2.1.blender_file_path =
      demoSession.blender_file_path ∧
    (applyOp demoDirs (AppOp.generateText3d none) sketchWorld demoSession).2.1.sketch_path.isSome
      = true :=
  ⟨C8_field_ownership.1 demoDirs AppOp.saveSession sketchWorld demoSession rfl,
    C8_field_ownership.2.1 demoDirs AppOp.saveSession sketchWorld demoSession rfl,
    C8_field_ownership.2.2.1 demoDirs AppOp.saveSession sketchWorld demoSession rfl,
    (C8_field_ownership.2.2.2 demoDirs (AppOp.generateText3d none) sketchWorld
      demoSession).1 rfl⟩

/-- C9: the updated_at field is never reassigned after construction: every
single orchestrator operation preserves it, and so does every sequence of
operations. -/
theorem C9_updated_at_never_refreshed :
    (∀ (dirs : AppDirs) (op : AppOp) (w : World) (s : IdeationSession),
      (applyOp dirs op w s).2.1.updated_at = s.updated_at) ∧
    (∀ (dirs : AppDirs) (ops : List AppOp) (w : World) (s : IdeationSession),
      (runOps dirs ops w s).2.updated_at = s.updated_at) := by
  have hstep : ∀ (dirs : AppDirs) (op : AppOp) (w : World) (s : IdeationSession),
      (applyOp dirs op w s).2.1.updated_at = s.updated_at := by
    intro dirs op w s
    cases op with
    | processSketch n c => exact (process_sketch_fields dirs w s n c).2.2.2.1
    | generateText3d p => exact (generate_text_3d_fields dirs w s p).2.2.2.2.2.1
    | exportToBlender bp now ec =>
      exact (export_to_blender_fields dirs w s bp now ec).2.2.2.2.2.1
    | saveSession =>
      exact congrArg IdeationSession.updated_at (save_session_session_unchanged dirs w s)
  refine ⟨hstep, ?_⟩
  intro dirs ops
  induction ops with
  | nil => intro w s; rfl
  | cons op ops ih =>
    intro w s
    simp only [runOps]
    rw [ih, hstep]
